import Mathlib

/-!
Shallow embedding of `src/aws_dashboard_server.py` (a FastAPI dashboard
backend over MySQL) and proofs about its six endpoints:
`GET /db/ques`, `GET /db/uastatus`, `GET /db/agent_conid`,
`POST /db/lunch`, `GET /db/lunch`, `GET /db/all_data`.

Tables are modelled as Lean lists of rows; SQL queries are embedded as the
corresponding list operations (filter / sort / take).  The backend driver is
modelled by an explicit environment `DBEnv` recording the outcome of the
connectivity probe, of each table read (either success or a raised message),
and of each UPDATE statement execution.  Each endpoint returns its response
payload together with observables: whether any real query was executed, and
for the write endpoint the resulting table state and the trace of executed
UPDATE statements.
-/

/-- A row of the `ques` table: an integer `id` plus an optional raw
`created_at` timestamp, carried as its textual form when present
(`none` models SQL NULL / pandas NaT). -/
structure QuesRow where
  id : Int
  created_at : Option String
deriving Repr, DecidableEq

/-- A `ques` row after the endpoint's normalization step
(`df['created_at'] = df['created_at'].astype(str)` in the source):
the `created_at` column is rendered as a string. -/
structure QuesOut where
  id : Int
  created_at : String
deriving Repr, DecidableEq

/-- Element-wise stringification performed by `astype(str)` on the
`created_at` column: a present value keeps its textual form, a pandas
null timestamp renders as "NaT". -/
def strOfCreatedAt : Option String → String
  | some s => s
  | none => "NaT"

/-- Opaque row of the `uastatus` table (column name / value pairs);
the source selects and returns it unchanged. -/
abbrev UaRow := List (String × String)

/-- Opaque row of the `agent_conID` table (column name / value pairs). -/
abbrev AgentRow := List (String × String)

/-- A row of the `lunch` table: `conID`, `KoreanName`, `lunch_time`
(the latter two nullable). -/
structure LunchRow where
  conID : Int
  KoreanName : Option String
  lunch_time : Option String
deriving Repr, DecidableEq

/-- One entry of the JSON batch posted to `POST /db/lunch`:
`item.get("name")` and `item.get("lunch_time")`, each possibly absent. -/
structure LunchItem where
  name : Option String
  lunch_time : Option String
deriving Repr, DecidableEq

/-- The backend environment seen by one request: `probe` is the outcome of
the connectivity test, each `...Fetch` field is the outcome of the
corresponding `pd.read_sql` call (`Except.error e` models a raised driver
exception with message `e`), and `updFailAt k` tells whether the k-th
executed UPDATE statement of a lunch batch raises (and with which message). -/
structure DBEnv where
  probe : Bool
  quesFetch : Except String Unit
  uaFetch : Except String Unit
  agentFetch : Except String Unit
  lunchFetch : Except String Unit
  lunchLookupFetch : Except String Unit
  updFailAt : Nat → Option String

/-- `test_db_connection()` from the source: runs `SELECT 1` and reports
whether the backend answered, swallowing the connectivity error. -/
def test_db_connection (env : DBEnv) : Bool :=
  env.probe

/-- Response shape of the four GET endpoints: a record sequence on success,
or a single object with an "error" key. -/
inductive GetResponse (α : Type) where
  | records (rs : List α)
  | error (message : String)
deriving Repr, DecidableEq

/-- Ordering used by `ORDER BY id DESC` on the `ques` table. -/
def quesDesc (a b : QuesRow) : Prop := b.id ≤ a.id

instance : DecidableRel quesDesc := fun a b => inferInstanceAs (Decidable (b.id ≤ a.id))

instance : IsTotal QuesRow quesDesc := ⟨fun a b => le_total b.id a.id⟩

instance : IsTrans QuesRow quesDesc := ⟨fun _ _ _ h1 h2 => le_trans h2 h1⟩

/-- The record sequence produced by `SELECT * FROM ques ORDER BY id DESC
LIMIT 100` followed by stringifying `created_at`. -/
def quesRecords (tbl : List QuesRow) : List QuesOut :=
  ((List.insertionSort quesDesc tbl).take 100).map
    (fun r => { id := r.id, created_at := strOfCreatedAt r.created_at })

/-- `GET /db/ques` (`get_ques_data` in the source).  Returns the response
and whether the real table query was executed. -/
def get_ques_data (env : DBEnv) (ques : List QuesRow) : GetResponse QuesOut × Bool :=
  if !(test_db_connection env) then
    (.error "데이터베이스 연결에 실패했습니다.", false)
  else
    match env.quesFetch with
    | .error e => (.error ("데이터 조회 중 오류 발생: " ++ e), true)
    | .ok _ => (.records (quesRecords ques), true)

/-- `GET /db/uastatus` (`get_uastatus_data`): `SELECT * FROM uastatus
LIMIT 1000`, no ordering, no normalization. -/
def get_uastatus_data (env : DBEnv) (ua : List UaRow) : GetResponse UaRow × Bool :=
  if !(test_db_connection env) then
    (.error "데이터베이스 연결에 실패했습니다.", false)
  else
    match env.uaFetch with
    | .error e => (.error ("데이터 조회 중 오류 발생: " ++ e), true)
    | .ok _ => (.records (ua.take 1000), true)

/-- `GET /db/agent_conid` (`get_agent_conid_data`): `SELECT * FROM
agent_conID LIMIT 100`. -/
def get_agent_conid_data (env : DBEnv) (agent : List AgentRow) : GetResponse AgentRow × Bool :=
  if !(test_db_connection env) then
    (.error "데이터베이스 연결에 실패했습니다.", false)
  else
    match env.agentFetch with
    | .error e => (.error ("데이터 조회 중 오류 발생: " ++ e), true)
    | .ok _ => (.records (agent.take 100), true)

/-- Ordering used by `ORDER BY lunch_time` on the `lunch` table (the query
only ever sorts rows whose `lunch_time` is non-null). -/
def lunchAsc (a b : LunchRow) : Prop :=
  a.lunch_time.getD "" ≤ b.lunch_time.getD ""

instance : DecidableRel lunchAsc :=
  fun a b => inferInstanceAs (Decidable (a.lunch_time.getD "" ≤ b.lunch_time.getD ""))

instance : IsTotal LunchRow lunchAsc := ⟨fun a b => le_total _ _⟩

instance : IsTrans LunchRow lunchAsc := ⟨fun _ _ _ h1 h2 => le_trans h1 h2⟩

/-- The record sequence produced by `SELECT conID, KoreanName, lunch_time
FROM lunch WHERE lunch_time IS NOT NULL ORDER BY lunch_time`. -/
def lunchSchedule (tbl : List LunchRow) : List LunchRow :=
  List.insertionSort lunchAsc (tbl.filter (fun r => r.lunch_time.isSome))

/-- `GET /db/lunch` (`get_lunch_data` in the source). -/
def get_lunch_data (env : DBEnv) (lunch : List LunchRow) : GetResponse LunchRow × Bool :=
  if !(test_db_connection env) then
    (.error "데이터베이스 연결에 실패했습니다.", false)
  else
    match env.lunchFetch with
    | .error e => (.error ("데이터 조회 중 오류 발생: " ++ e), true)
    | .ok _ => (.records (lunchSchedule lunch), true)

/-- The `korean_to_conid` dictionary built by `save_lunch_data`: iterate the
`lunch` rows in order, skip null `KoreanName`, assign
`korean_to_conid[KoreanName] = conID` with later rows overwriting earlier
ones (last writer wins), then look a name up. -/
def buildKoreanToConid : List LunchRow → String → Option Int
  | [], _ => none
  | r :: rest, s =>
    match buildKoreanToConid rest s with
    | some c => some c
    | none => if r.KoreanName = some s then some r.conID else none

/-- Python truthiness of the resolved `conid` (`None` and `0` are falsy). -/
def truthyInt : Option Int → Bool
  | some c => c != 0
  | none => false

/-- Python truthiness of the `lunch_time` value (`None` and `""` are falsy). -/
def truthyStr : Option String → Bool
  | some s => s != ""
  | none => false

/-- Semantics of `UPDATE lunch SET lunch_time = :t WHERE conID = :c`:
returns the updated table and the statement's matched-row count (the
SQLAlchemy MySQL dialect reports matched rows as `rowcount`). -/
def applyUpdate (tbl : List LunchRow) (c : Int) (t : String) : List LunchRow × Nat :=
  (tbl.map (fun r => if r.conID = c then { r with lunch_time := some t } else r),
   (tbl.filter (fun r => r.conID == c)).length)

/-- The per-entry update loop inside the `engine.begin()` transaction of
`save_lunch_data`: resolve `name`, skip silently when `conid` or
`lunch_time` is falsy, otherwise execute the UPDATE (which may raise,
aborting the loop) and bump `updated_count` when rows matched.  Arguments
thread the working table, the running `updated_count`, the index of the
next UPDATE execution, and the ghost trace of executed UPDATE statements. -/
def runUpdates (env : DBEnv) (mapping : String → Option Int) :
    List LunchItem → List LunchRow → Nat → Nat → List (Int × String) →
    Except String (List LunchRow × Nat × List (Int × String))
  | [], tbl, cnt, _, tr => .ok (tbl, cnt, tr)
  | item :: rest, tbl, cnt, k, tr =>
    let conid : Option Int :=
      match item.name with
      | some n => mapping n
      | none => none
    if truthyInt conid && truthyStr item.lunch_time then
      match env.updFailAt k with
      | some msg => .error msg
      | none =>
        let c := conid.getD 0
        let t := item.lunch_time.getD ""
        let p := applyUpdate tbl c t
        runUpdates env mapping rest p.1 (if 0 < p.2 then cnt + 1 else cnt) (k + 1)
          (tr ++ [(c, t)])
    else
      runUpdates env mapping rest tbl cnt k tr

/-- Response shape of `POST /db/lunch`: either the success payload of the
source's lines 144-149 (status, message, echoed count and data) or an
object with status "error" and a message. -/
inductive SaveResponse where
  | success (count : Nat) (data : List LunchItem)
  | error (message : String)
deriving Repr, DecidableEq

/-- Full outcome of one `POST /db/lunch` request: the lunch table after the
request (reflecting the transaction's commit or rollback), the response
payload, and observables: whether the lookup query ran, whether the
transaction was opened, and the trace of committed UPDATE statements. -/
structure SaveResult where
  table : List LunchRow
  response : SaveResponse
  lookupQueried : Bool
  txOpened : Bool
  trace : List (Int × String)
deriving Repr, DecidableEq

/-- Message of the NameError raised by the source's success return: line 147
reads `len(lunch_data)` but no variable `lunch_data` exists in scope (the
parsed body is bound to `data`). -/
def nameErrorMsg : String := "name \x27lunch_data\x27 is not defined"

/-- `POST /db/lunch` (`save_lunch_data` in the source).  Probe, then load the
`conID`/`KoreanName` lookup (its failure returns the lookup error payload
before any transaction), then run the batch inside one transaction: an
UPDATE that raises rolls the whole batch back and the outer handler turns
the exception into an error payload.  When every entry is processed the
transaction commits on leaving the `with` block, after which the success
return itself raises NameError (`lunch_data` is undefined), so the outer
handler answers with an error payload even though the commit stands. -/
def save_lunch_data (env : DBEnv) (lunch : List LunchRow) (data : List LunchItem) : SaveResult :=
  if !(test_db_connection env) then
    { table := lunch, response := .error "데이터베이스 연결에 실패했습니다.",
      lookupQueried := false, txOpened := false, trace := [] }
  else
    match env.lunchLookupFetch with
    | .error e =>
      { table := lunch, response := .error ("상담사 정보 조회 중 오류: " ++ e),
        lookupQueried := true, txOpened := false, trace := [] }
    | .ok _ =>
      match runUpdates env (buildKoreanToConid lunch) data lunch 0 0 [] with
      | .error e =>
        { table := lunch, response := .error ("데이터 저장 중 오류 발생: " ++ e),
          lookupQueried := true, txOpened := true, trace := [] }
      | .ok (tbl2, _cnt, tr) =>
        { table := tbl2,
          response := .error ("데이터 저장 중 오류 발생: " ++ nameErrorMsg),
          lookupQueried := true, txOpened := true, trace := tr }

/-- Value held under one key of the `GET /db/all_data` response: either the
table's record sequence or that table's inline error object. -/
inductive TablePart (α : Type) where
  | records (rs : List α)
  | fetchError (message : String)
deriving Repr, DecidableEq

/-- Response shape of `GET /db/all_data`: either a single top-level error
object, or the result mapping with the keys "ques", "uastatus" and
"agent_conID" (only the last of which can hold an inline error). -/
inductive AllDataResponse where
  | error (message : String)
  | result (ques : List QuesOut) (uastatus : List UaRow) (agent_conID : TablePart AgentRow)
deriving Repr, DecidableEq

/-- `GET /db/all_data` (`get_all_data` in the source).  The ques and
uastatus fetches run unprotected inside the outer try, so either raising
makes the whole handler answer with one error object; only the agent_conID
fetch sits in its own try/except and degrades to an inline error. -/
def get_all_data (env : DBEnv) (ques : List QuesRow) (ua : List UaRow)
    (agent : List AgentRow) : AllDataResponse × Bool :=
  if !(test_db_connection env) then
    (.error "데이터베이스 연결에 실패했습니다.", false)
  else
    match env.quesFetch with
    | .error e => (.error ("데이터 조회 중 오류 발생: " ++ e), true)
    | .ok _ =>
      match env.uaFetch with
      | .error e => (.error ("데이터 조회 중 오류 발생: " ++ e), true)
      | .ok _ =>
        let agentPart : TablePart AgentRow :=
          match env.agentFetch with
          | .error e => .fetchError ("데이터 조회 중 오류 발생: " ++ e)
          | .ok _ => .records (agent.take 100)
        (.result (quesRecords ques) (ua.take 1000) agentPart, true)

/-! ## Test fixtures -/

/-- Environment in which the probe succeeds, every read succeeds and no
UPDATE statement raises. -/
def envOk : DBEnv :=
  { probe := true, quesFetch := .ok (), uaFetch := .ok (), agentFetch := .ok (),
    lunchFetch := .ok (), lunchLookupFetch := .ok (), updFailAt := fun _ => none }

/-- Environment in which the connectivity probe fails. -/
def envDown : DBEnv := { envOk with probe := false }

/-- Sample lunch table with one counselor: conID 7, name 김민수, no
lunch time yet. -/
def tblKim : List LunchRow :=
  [{ conID := 7, KoreanName := some "김민수", lunch_time := none }]

/-! ## Claim theorems -/

/-- C3: whenever the connectivity probe reports failure, every one of the six
endpoints returns its backend-unavailable payload (an "error" object for the
five GET endpoints, a status-"error" object for POST /db/lunch) without
executing the underlying table query or update: the executed-query flag is
false, the lookup is not queried, no transaction is opened, and the lunch
table is unchanged. -/
theorem probe_failure_short_circuits (env : DBEnv) (ques : List QuesRow) (ua : List UaRow)
    (agent : List AgentRow) (lunch : List LunchRow) (data : List LunchItem)
    (h : env.probe = false) :
    get_ques_data env ques = (.error "데이터베이스 연결에 실패했습니다.", false) ∧
    get_uastatus_data env ua = (.error "데이터베이스 연결에 실패했습니다.", false) ∧
    get_agent_conid_data env agent = (.error "데이터베이스 연결에 실패했습니다.", false) ∧
    get_lunch_data env lunch = (.error "데이터베이스 연결에 실패했습니다.", false) ∧
    save_lunch_data env lunch data =
      { table := lunch, response := .error "데이터베이스 연결에 실패했습니다.",
        lookupQueried := false, txOpened := false, trace := [] } ∧
    get_all_data env ques ua agent = (.error "데이터베이스 연결에 실패했습니다.", false) := by
  simp [get_ques_data, get_uastatus_data, get_agent_conid_data, get_lunch_data,
    save_lunch_data, get_all_data, test_db_connection, h]

/-- Witness for C3 at the concrete failing-probe environment. -/
theorem probe_failure_short_circuits_witness :
    envDown.probe = false ∧
    (get_ques_data envDown [] = (.error "데이터베이스 연결에 실패했습니다.", false) ∧
     get_uastatus_data envDown [] = (.error "데이터베이스 연결에 실패했습니다.", false) ∧
     get_agent_conid_data envDown [] = (.error "데이터베이스 연결에 실패했습니다.", false) ∧
     get_lunch_data envDown tblKim = (.error "데이터베이스 연결에 실패했습니다.", false) ∧
     save_lunch_data envDown tblKim [] =
       { table := tblKim, response := .error "데이터베이스 연결에 실패했습니다.",
         lookupQueried := false, txOpened := false, trace := [] } ∧
     get_all_data envDown [] [] [] = (.error "데이터베이스 연결에 실패했습니다.", false)) :=
  ⟨rfl, probe_failure_short_circuits envDown [] [] [] tblKim [] rfl⟩

/-- The embedded ques query yields at most 100 records. -/
theorem quesRecords_len_le (tbl : List QuesRow) : (quesRecords tbl).length ≤ 100 := by
  simp only [quesRecords, List.length_map, List.length_take]
  exact Nat.min_le_left _ _

/-- The embedded ques query yields records sorted non-increasingly by id. -/
theorem quesRecords_sorted (tbl : List QuesRow) :
    List.Pairwise (fun a b : QuesOut => b.id ≤ a.id) (quesRecords tbl) := by
  have hs : List.Pairwise quesDesc (List.insertionSort quesDesc tbl) :=
    List.sorted_insertionSort quesDesc tbl
  have ht : List.Pairwise quesDesc ((List.insertionSort quesDesc tbl).take 100) :=
    List.Pairwise.sublist (List.take_sublist 100 _) hs
  exact List.pairwise_map.mpr ht

/-- C7: whatever record sequence GET /db/ques returns has length at most 100
and its id fields are non-increasing (ordered by id descending). -/
theorem ques_endpoint_bounded_sorted (env : DBEnv) (ques : List QuesRow)
    (rs : List QuesOut) (q : Bool) (h : get_ques_data env ques = (.records rs, q)) :
    rs.length ≤ 100 ∧ List.Pairwise (fun a b : QuesOut => b.id ≤ a.id) rs := by
  have hrs : rs = quesRecords ques := by
    unfold get_ques_data test_db_connection at h
    cases hp : env.probe with
    | false => simp [hp] at h
    | true =>
      cases hq : env.quesFetch with
      | error e => simp [hp, hq] at h
      | ok u =>
        simp only [hp, hq, Bool.not_true, Bool.false_eq_true, if_false, Prod.mk.injEq] at h
        exact (GetResponse.records.inj h.1).symm
  subst hrs
  exact ⟨quesRecords_len_le ques, quesRecords_sorted ques⟩

/-- Witness for C7 at a concrete environment and table. -/
theorem ques_endpoint_bounded_sorted_witness :
    get_ques_data envOk [{ id := 1, created_at := none }] =
      (.records [{ id := 1, created_at := "NaT" }], true) ∧
    (([{ id := (1 : Int), created_at := "NaT" }] : List QuesOut).length ≤ 100 ∧
      List.Pairwise (fun a b : QuesOut => b.id ≤ a.id)
        [{ id := 1, created_at := "NaT" }]) :=
  ⟨rfl, ques_endpoint_bounded_sorted envOk [{ id := 1, created_at := none }]
    [{ id := 1, created_at := "NaT" }] true rfl⟩

/-- C5: an input entry whose name resolves to nothing in the
`korean_to_conid` mapping (including an absent name), or whose `lunch_time`
is absent or empty, is skipped silently: the update loop continues on the
remaining entries from the identical state, so it raises no error, executes
no UPDATE statement (the trace argument is unchanged, as is the statement
index), and leaves `updated_count` untouched. -/
theorem skip_unresolved_or_empty (env : DBEnv) (mapping : String → Option Int)
    (item : LunchItem) (rest : List LunchItem) (tbl : List LunchRow) (cnt k : Nat)
    (tr : List (Int × String))
    (h : (match item.name with | some n => mapping n | none => none) = none ∨
         item.lunch_time = none ∨ item.lunch_time = some "") :
    runUpdates env mapping (item :: rest) tbl cnt k tr =
      runUpdates env mapping rest tbl cnt k tr := by
  have hguard :
      (truthyInt (match item.name with | some n => mapping n | none => none)
        && truthyStr item.lunch_time) = false := by
    rcases h with h | h | h
    · rw [h]; rfl
    · rw [h]; simp [truthyStr]
    · rw [h]; simp [truthyStr]
  simp only [runUpdates, hguard, Bool.false_eq_true, if_false]

/-- Witness for C5: a batch whose first entry has an unresolvable name is
processed exactly as the batch without that entry. -/
theorem skip_unresolved_or_empty_witness :
    buildKoreanToConid tblKim "홍길동" = none ∧
    runUpdates envOk (buildKoreanToConid tblKim)
        [{ name := some "홍길동", lunch_time := some "12:00" },
         { name := some "김민수", lunch_time := some "12:00" }] tblKim 0 0 [] =
      runUpdates envOk (buildKoreanToConid tblKim)
        [{ name := some "김민수", lunch_time := some "12:00" }] tblKim 0 0 [] :=
  ⟨rfl, skip_unresolved_or_empty envOk (buildKoreanToConid tblKim)
    { name := some "홍길동", lunch_time := some "12:00" }
    [{ name := some "김민수", lunch_time := some "12:00" }] tblKim 0 0 []
    (Or.inl rfl)⟩

/-- C10: an entry whose name resolves in the lookup table to conID 0 is
treated exactly like an entry with an unresolved name, because the source
guards on the truthiness of the resolved conid (`if conid and lunch_time`)
rather than on its presence: no UPDATE statement runs, `updated_count` is
not incremented, and the loop continues unchanged on the rest. -/
theorem falsy_conid_skipped (env : DBEnv) (mapping : String → Option Int)
    (item : LunchItem) (rest : List LunchItem) (tbl : List LunchRow) (cnt k : Nat)
    (tr : List (Int × String))
    (h : (match item.name with | some n => mapping n | none => none) = some 0) :
    runUpdates env mapping (item :: rest) tbl cnt k tr =
      runUpdates env mapping rest tbl cnt k tr := by
  have hguard :
      (truthyInt (match item.name with | some n => mapping n | none => none)
        && truthyStr item.lunch_time) = false := by
    rw [h]; simp [truthyInt]
  simp only [runUpdates, hguard, Bool.false_eq_true, if_false]

/-- Sample lunch table whose single counselor has the falsy conID 0. -/
def tblZero : List LunchRow :=
  [{ conID := 0, KoreanName := some "박영희", lunch_time := none }]

/-- Witness for C10: a name resolving to conID 0 is skipped. -/
theorem falsy_conid_skipped_witness :
    buildKoreanToConid tblZero "박영희" = some 0 ∧
    runUpdates envOk (buildKoreanToConid tblZero)
        [{ name := some "박영희", lunch_time := some "12:00" }] tblZero 0 0 [] =
      runUpdates envOk (buildKoreanToConid tblZero) [] tblZero 0 0 [] :=
  ⟨rfl, falsy_conid_skipped envOk (buildKoreanToConid tblZero)
    { name := some "박영희", lunch_time := some "12:00" } [] tblZero 0 0 [] rfl⟩

/-- C4: the batch is applied atomically.  If the update loop raises mid-batch
the transaction rolls back and the table after the request is the original
table (no partial writes); only when every entry has been processed does the
commit make the loop's final table the table after the request. -/
theorem batch_atomic (env : DBEnv) (lunch : List LunchRow) (data : List LunchItem)
    (hp : env.probe = true) (hl : env.lunchLookupFetch = Except.ok ()) :
    (∀ e, runUpdates env (buildKoreanToConid lunch) data lunch 0 0 [] = .error e →
        (save_lunch_data env lunch data).table = lunch) ∧
    (∀ tbl2 cnt tr,
        runUpdates env (buildKoreanToConid lunch) data lunch 0 0 [] = .ok (tbl2, cnt, tr) →
        (save_lunch_data env lunch data).table = tbl2) := by
  constructor
  · intro e he
    simp [save_lunch_data, test_db_connection, hp, hl, he]
  · intro tbl2 cnt tr hok
    simp [save_lunch_data, test_db_connection, hp, hl, hok]

/-- Environment in which the first UPDATE statement raises. -/
def envFail : DBEnv := { envOk with updFailAt := fun _ => some "boom" }

/-- Witness for C4: with a failing first UPDATE the lunch table is returned
unchanged. -/
theorem batch_atomic_witness :
    runUpdates envFail (buildKoreanToConid tblKim)
        [{ name := some "김민수", lunch_time := some "12:00" }] tblKim 0 0 [] =
      .error "boom" ∧
    (save_lunch_data envFail tblKim
        [{ name := some "김민수", lunch_time := some "12:00" }]).table = tblKim :=
  ⟨rfl, (batch_atomic envFail tblKim
    [{ name := some "김민수", lunch_time := some "12:00" }] rfl rfl).1 "boom" rfl⟩

/-- C6: when loading the conID/KoreanName lookup fails, save_lunch_data
answers with the lookup error payload carrying the underlying message,
opens no transaction, executes no UPDATE statement, and leaves the lunch
table unchanged. -/
theorem lookup_failed_aborts (env : DBEnv) (lunch : List LunchRow) (data : List LunchItem)
    (hp : env.probe = true) (e : String) (hl : env.lunchLookupFetch = Except.error e) :
    save_lunch_data env lunch data =
      { table := lunch, response := .error ("상담사 정보 조회 중 오류: " ++ e),
        lookupQueried := true, txOpened := false, trace := [] } := by
  simp [save_lunch_data, test_db_connection, hp, hl]

/-- Environment in which reading the lookup table raises. -/
def envLookupFail : DBEnv := { envOk with lunchLookupFetch := .error "lost" }

/-- Witness for C6 at a concrete failing lookup. -/
theorem lookup_failed_aborts_witness :
    envLookupFail.lunchLookupFetch = Except.error "lost" ∧
    save_lunch_data envLookupFail tblKim
        [{ name := some "김민수", lunch_time := some "12:00" }] =
      { table := tblKim, response := .error ("상담사 정보 조회 중 오류: " ++ "lost"),
        lookupQueried := true, txOpened := false, trace := [] } :=
  ⟨rfl, lookup_failed_aborts envLookupFail tblKim
    [{ name := some "김민수", lunch_time := some "12:00" }] rfl "lost" rfl⟩

/-- C1 is refuted by the code: on a batch whose single entry resolves to
conID 7 and whose update phase completes and commits (the table and the
UPDATE trace show the write went through), the endpoint does not answer
with the success payload echoing the batch.  The success return of the
source reads `len(lunch_data)` with `lunch_data` undefined, so it raises
NameError and the outer handler answers with an error payload. -/
theorem lunch_save_name_error :
    save_lunch_data envOk tblKim [{ name := some "김민수", lunch_time := some "12:00" }] =
      { table := [{ conID := 7, KoreanName := some "김민수", lunch_time := some "12:00" }],
        response := .error ("데이터 저장 중 오류 발생: " ++ nameErrorMsg),
        lookupQueried := true, txOpened := true, trace := [(7, "12:00")] } ∧
    ∀ cn d, (save_lunch_data envOk tblKim
        [{ name := some "김민수", lunch_time := some "12:00" }]).response ≠
      SaveResponse.success cn d := by
  have h1 : save_lunch_data envOk tblKim
      [{ name := some "김민수", lunch_time := some "12:00" }] =
      { table := [{ conID := 7, KoreanName := some "김민수", lunch_time := some "12:00" }],
        response := .error ("데이터 저장 중 오류 발생: " ++ nameErrorMsg),
        lookupQueried := true, txOpened := true, trace := [(7, "12:00")] } := rfl
  refine ⟨h1, fun cn d h => ?_⟩
  rw [h1] at h
  simp at h

/-- Decides whether a GET /db/all_data response is the keyed result mapping
(as opposed to a single top-level error object). -/
def isResultShape : AllDataResponse → Bool
  | .result _ _ _ => true
  | .error _ => false

/-- Environment in which only the ques fetch raises. -/
def envQuesFail : DBEnv := { envOk with quesFetch := .error "boom" }

/-- Counterexample to C2: with the queue fetch raising while the status and
connection-ID fetches would succeed, GET /db/all_data answers with one
top-level error object — the response is not the keyed mapping, so nothing
of the succeeding fetches is included. -/
theorem all_data_collapse_counterexample :
    envQuesFail.probe = true ∧ envQuesFail.quesFetch = Except.error "boom" ∧
    envQuesFail.uaFetch = Except.ok () ∧ envQuesFail.agentFetch = Except.ok () ∧
    get_all_data envQuesFail [] [[("state", "ok")]] [] =
      (.error ("데이터 조회 중 오류 발생: " ++ "boom"), true) ∧
    isResultShape (get_all_data envQuesFail [] [[("state", "ok")]] []).1 = false :=
  ⟨rfl, rfl, rfl, rfl, rfl, rfl⟩

/-- C2 amended: in GET /db/all_data the queue and status fetches are not
isolated — if the queue fetch raises, or the queue fetch succeeds and the
status fetch raises, the whole response collapses to a single top-level
error object carrying that fetch's message (the other tables' data is not
returned); only the connection-ID fetch degrades to a per-key error. -/
theorem all_data_required_fetch_collapses (env : DBEnv) (ques : List QuesRow)
    (ua : List UaRow) (agent : List AgentRow) (hp : env.probe = true) :
    (∀ e, env.quesFetch = .error e →
        get_all_data env ques ua agent =
          (.error ("데이터 조회 중 오류 발생: " ++ e), true)) ∧
    (∀ e, env.quesFetch = Except.ok () → env.uaFetch = .error e →
        get_all_data env ques ua agent =
          (.error ("데이터 조회 중 오류 발생: " ++ e), true)) := by
  constructor
  · intro e he
    simp [get_all_data, test_db_connection, hp, he]
  · intro e hq hu
    simp [get_all_data, test_db_connection, hp, hq, hu]

/-- Witness for the amended C2 at the concrete failing-queue environment. -/
theorem all_data_required_fetch_collapses_witness :
    envQuesFail.quesFetch = Except.error "boom" ∧
    get_all_data envQuesFail [] [] [] =
      (.error ("데이터 조회 중 오류 발생: " ++ "boom"), true) :=
  ⟨rfl, (all_data_required_fetch_collapses envQuesFail [] [] [] rfl).1 "boom" rfl⟩

/-- C8: an exception during the connection-ID fetch is caught locally and
turned into an inline error object under the agent_conID key, while the
response still carries the valid ques and uastatus record sequences
produced by the other two fetches. -/
theorem agent_fetch_isolated (env : DBEnv) (ques : List QuesRow) (ua : List UaRow)
    (agent : List AgentRow) (hp : env.probe = true)
    (hq : env.quesFetch = Except.ok ()) (hu : env.uaFetch = Except.ok ())
    (e : String) (ha : env.agentFetch = Except.error e) :
    get_all_data env ques ua agent =
      (.result (quesRecords ques) (ua.take 1000)
        (.fetchError ("데이터 조회 중 오류 발생: " ++ e)), true) := by
  simp [get_all_data, test_db_connection, hp, hq, hu, ha]

/-- Environment in which only the agent_conID fetch raises. -/
def envAgentFail : DBEnv := { envOk with agentFetch := .error "gone" }

/-- Witness for C8 with one ques row and one uastatus row. -/
theorem agent_fetch_isolated_witness :
    envAgentFail.agentFetch = Except.error "gone" ∧
    get_all_data envAgentFail [{ id := 1, created_at := none }] [[("state", "ok")]] [] =
      (.result [{ id := 1, created_at := "NaT" }] [[("state", "ok")]]
        (.fetchError ("데이터 조회 중 오류 발생: " ++ "gone")), true) :=
  ⟨rfl, agent_fetch_isolated envAgentFail [{ id := 1, created_at := none }]
    [[("state", "ok")]] [] rfl rfl rfl "gone" rfl⟩

/-- A name that the korean_to_conid mapping resolves to conID c comes from
some lunch row carrying that name and conID. -/
theorem buildKoreanToConid_mem : ∀ (tbl : List LunchRow) (n : String) (c : Int),
    buildKoreanToConid tbl n = some c →
    ∃ r, r ∈ tbl ∧ r.KoreanName = some n ∧ r.conID = c := by
  intro tbl
  induction tbl with
  | nil => intro n c h; simp [buildKoreanToConid] at h
  | cons r rest ih =>
    intro n c h
    rw [buildKoreanToConid] at h
    cases hr : buildKoreanToConid rest n with
    | some c2 =>
      rw [hr] at h
      simp only [Option.some.injEq] at h
      obtain ⟨r2, hm, hk, hc⟩ := ih n c2 hr
      exact ⟨r2, List.mem_cons_of_mem _ hm, hk, by rw [hc, h]⟩
    | none =>
      rw [hr] at h
      by_cases hk : r.KoreanName = some n
      · rw [if_pos hk] at h
        simp only [Option.some.injEq] at h
        exact ⟨r, List.mem_cons_self _ _, hk, h⟩
      · rw [if_neg hk] at h
        exact absurd h (by simp)

/-- C9: after a save_lunch_data call whose single entry sets 12:30 for a
name the lookup resolves to a known (truthy) conID, with the lookup read and
the UPDATE succeeding, a subsequent GET /db/lunch on the committed table
returns a record sequence that contains a record with that conID and
lunch_time 12:30, contains only rows with non-null lunch_time, and is
ordered by lunch_time ascending. -/
theorem lunch_round_trip (env env2 : DBEnv) (tbl : List LunchRow) (n : String) (c : Int)
    (hp : env.probe = true) (hl : env.lunchLookupFetch = Except.ok ())
    (hf : env.updFailAt 0 = none)
    (hmap : buildKoreanToConid tbl n = some c) (hc : c ≠ 0)
    (hp2 : env2.probe = true) (hg : env2.lunchFetch = Except.ok ()) :
    ∃ rs, get_lunch_data env2
        (save_lunch_data env tbl [{ name := some n, lunch_time := some "12:30" }]).table =
        (.records rs, true) ∧
      (∃ r, r ∈ rs ∧ r.conID = c ∧ r.lunch_time = some "12:30") ∧
      (∀ r, r ∈ rs → r.lunch_time ≠ none) ∧
      List.Pairwise lunchAsc rs := by
  have htbl : (save_lunch_data env tbl
      [{ name := some n, lunch_time := some "12:30" }]).table =
      tbl.map (fun r => if r.conID = c then { r with lunch_time := some "12:30" } else r) := by
    simp [save_lunch_data, test_db_connection, hp, hl, runUpdates, hmap, hf,
      truthyInt, truthyStr, hc, applyUpdate]
  rw [htbl]
  have hget : get_lunch_data env2
      (tbl.map (fun r => if r.conID = c then { r with lunch_time := some "12:30" } else r)) =
      (.records (lunchSchedule (tbl.map
        (fun r => if r.conID = c then { r with lunch_time := some "12:30" } else r))), true) := by
    simp [get_lunch_data, test_db_connection, hp2, hg]
  refine ⟨_, hget, ?_, ?_, ?_⟩
  · obtain ⟨r0, hr0mem, hr0k, hr0c⟩ := buildKoreanToConid_mem tbl n c hmap
    have h1 : ({ r0 with lunch_time := some "12:30" } : LunchRow) ∈
        tbl.map (fun r => if r.conID = c then { r with lunch_time := some "12:30" } else r) := by
      have h0 := List.mem_map_of_mem
        (fun r => if r.conID = c then { r with lunch_time := some "12:30" } else r) hr0mem
      simpa [hr0c] using h0
    have h3 : ({ r0 with lunch_time := some "12:30" } : LunchRow) ∈
        (tbl.map (fun r => if r.conID = c then { r with lunch_time := some "12:30" } else r)).filter
          (fun r => r.lunch_time.isSome) :=
      List.mem_filter.mpr ⟨h1, rfl⟩
    have h4 : ({ r0 with lunch_time := some "12:30" } : LunchRow) ∈
        lunchSchedule (tbl.map
          (fun r => if r.conID = c then { r with lunch_time := some "12:30" } else r)) := by
      unfold lunchSchedule
      exact ((List.perm_insertionSort lunchAsc _).mem_iff).mpr h3
    exact ⟨{ r0 with lunch_time := some "12:30" }, h4, hr0c, rfl⟩
  · intro r hr
    have h5 : r ∈ (tbl.map
        (fun r => if r.conID = c then { r with lunch_time := some "12:30" } else r)).filter
          (fun r => r.lunch_time.isSome) :=
      ((List.perm_insertionSort lunchAsc _).mem_iff).mp hr
    exact Option.isSome_iff_ne_none.mp (List.mem_filter.mp h5).2
  · exact List.sorted_insertionSort lunchAsc _

/-- Witness for C9: writing 12:30 for 김민수 (conID 7) in the one-row table
and reading the schedule back. -/
theorem lunch_round_trip_witness :
    buildKoreanToConid tblKim "김민수" = some 7 ∧
    ∃ rs, get_lunch_data envOk
        (save_lunch_data envOk tblKim
          [{ name := some "김민수", lunch_time := some "12:30" }]).table =
        (.records rs, true) ∧
      (∃ r, r ∈ rs ∧ r.conID = 7 ∧ r.lunch_time = some "12:30") ∧
      (∀ r, r ∈ rs → r.lunch_time ≠ none) ∧
      List.Pairwise lunchAsc rs :=
  ⟨rfl, lunch_round_trip envOk envOk tblKim "김민수" 7 rfl rfl rfl rfl (by decide) rfl rfl⟩
